import Mathlib

/-!
# Verification of the DapCoin auto-bot core (src/index.js)

Shallow embedding of the account-processing pipeline of `src/index.js`:
the resilient request client (`requestWithRetry`), the login protocol
(`login`), the task engine (`fetchActiveTasks`, `completeTask`, the
pending filter and the per-account completion loop of `processAccount`),
the proxy configuration (`initializeConfig` and the round-robin proxy
assignment of `runCycle`), and the cycle scheduler (`runCycle`, `run`).

Network transport, the file readers and the crypto library are external
collaborators: they enter the model as explicit parameters (attempt
oracles `Nat → AttemptResult`, response values `Except ReqError _`, and
abstract signing/encoding functions), while every piece of control flow
and data manipulation of the JavaScript core is translated directly.
-/

namespace DapBot

/-! ## Resilient request client (src/index.js, `requestWithRetry`, lines 154-182)

One transport attempt either yields an HTTP response with some status, or
fails at the transport level (network failure / timeout) with no response.
Axios then applies a status validator: an accepted status is returned to the
caller, a rejected status is thrown as an error carrying the response status,
and a transport failure is thrown as an error with no response attached. -/

/-- Outcome of a single underlying transport attempt. -/
inductive AttemptResult where
  | response (status : Nat)
  | netError
deriving DecidableEq, Repr

/-- An error thrown by the axios call: either a response whose status the
validator rejected (`error.response.status` is available), or a transport
failure with no response. -/
inductive ReqError where
  | withStatus (status : Nat)
  | noResponse
deriving DecidableEq, Repr

/-- One `axios.get`/`axios.post` call: returns the response if the status
validator accepts it, otherwise throws. -/
def axiosCall (validate : Nat → Bool) : AttemptResult → Except ReqError Nat
  | .response s => if validate s then .ok s else .error (.withStatus s)
  | .netError => .error .noResponse

/-- Default axios status validation: 2xx is a success, anything else throws. -/
def defaultValidate (s : Nat) : Bool := decide (200 ≤ s) && decide (s < 300)

/-- Permissive validation installed by `dailyCheckin` and `completeTask`:
`(status) => status >= 200 && status < 500` (src/index.js lines 248, 290). -/
def permissiveValidate (s : Nat) : Bool := decide (200 ≤ s) && decide (s < 500)

/-- The guard `error.response && error.response.status >= 500` of the first
retry branch (src/index.js line 167). -/
def errStatusGE500 : ReqError → Bool
  | .withStatus s => decide (500 ≤ s)
  | .noResponse => false

/-- The retry loop of `requestWithRetry`. The JavaScript iterates
`for (let i = 0; i < retries; i++)`; here `remaining` is `retries - i`, so the
loop guard `i < retries` is `remaining ≥ 1` (the `0` case is the loop falling
through, which in JavaScript returns `undefined`, modelled as `none`), and the
attempts-left guard `i < retries - 1` of both catch branches is
`0 < remaining - 1`, i.e. `0 < remaining` under the `remaining + 1` pattern.
`env i` is the transport outcome of the `i`-th attempt; the returned list
records the backoff (in ms) slept before each retry — the code sleeps
`backoff` ms (`delay(backoff / 1000)` seconds) and then multiplies `backoff`
by 1.5, in both catch branches. -/
def retryGo (validate : Nat → Bool) (env : Nat → AttemptResult) :
    Nat → Nat → ℚ → Option (Except ReqError Nat) × List ℚ
  | 0, _, _ => (none, [])
  | remaining + 1, i, backoff =>
    match axiosCall validate (env i) with
    | .ok s => (some (.ok s), [])
    | .error e =>
      if errStatusGE500 e = true ∧ 0 < remaining then
        let r := retryGo validate env remaining (i + 1) (backoff * (3 / 2))
        (r.1, backoff :: r.2)
      else if 0 < remaining then
        let r := retryGo validate env remaining (i + 1) (backoff * (3 / 2))
        (r.1, backoff :: r.2)
      else
        (some (.error e), [])

/-- `requestWithRetry` as called throughout the program: `retries = 3`,
initial `backoff = 2000` ms. First component: `some (.ok s)` is a returned
response, `some (.error e)` is the error thrown after the final attempt;
second component: the list of backoff sleeps, one per retry taken. -/
def requestWithRetry (validate : Nat → Bool) (env : Nat → AttemptResult) :
    Option (Except ReqError Nat) × List ℚ :=
  retryGo validate env 3 0 2000

/-! ## Authentication session (src/index.js, `login`, lines 212-242) -/

/-- The part of a Solana keypair the login flow uses: the base58 public
address (`keypair.publicKey.toBase58()`) and the secret-key bytes fed to
`nacl.sign.detached`. -/
structure Keypair where
  publicKeyBase58 : String
  secretKey : List Nat
deriving DecidableEq, Repr

/-- Body of the `/auth/login` response; each field may be absent. -/
structure LoginData where
  token : Option String
  nonce : Option String
deriving DecidableEq, Repr

/-- Body POSTed to `/auth/verify`:
`{ signature: signatureBase64, wallet_address: address }`. -/
structure VerifyPayload where
  signature : String
  wallet_address : String
deriving DecidableEq, Repr

/-- Body of the `/auth/verify` response; `verifyResponse.data.token` may be
absent. -/
structure VerifyData where
  token : Option String
deriving DecidableEq, Repr

/-- JavaScript truthiness of an optional string field, as tested by
`if (response.data.token)`: absent and `""` are falsy. -/
def truthy : Option String → Option String
  | some s => if s = "" then none else some s
  | none => none

/-- The external crypto collaborators of `login`: `new TextEncoder().encode`,
`nacl.sign.detached` (message bytes, secret-key bytes ↦ signature bytes) and
`Buffer.from(·).toString(\x27base64\x27)`. They are library calls outside the
repository, so the model abstracts over them. -/
structure CryptoPrims where
  enc : String → List Nat
  sign : List Nat → List Nat → List Nat
  b64 : List Nat → String

/-- `login` (src/index.js lines 212-242). Its two network calls enter as
resolved `requestWithRetry` outcomes: `loginResp` is the `/auth/login` POST,
`verify` maps the POSTed verify payload to the `/auth/verify` outcome.
`.error` is the wrapped exception thrown from the catch block; `.ok` carries
the returned token, which in the verify branch is whatever
`verifyResponse.data.token` holds (possibly absent). -/
def login (cr : CryptoPrims) (kp : Keypair)
    (loginResp : Except ReqError LoginData)
    (verify : VerifyPayload → Except ReqError VerifyData) :
    Except String (Option String) :=
  match loginResp with
  | .error _ => .error "Failed to login: request error"
  | .ok data =>
    match truthy data.token with
    | some t => .ok (some t)
    | none =>
      match truthy data.nonce with
      | some nonce =>
        let signatureBase64 := cr.b64 (cr.sign (cr.enc nonce) kp.secretKey)
        match verify { signature := signatureBase64,
                       wallet_address := kp.publicKeyBase58 } with
        | .ok v => .ok v.token
        | .error _ => .error "Failed to login: request error"
      | none =>
        .error "Failed to login: Unexpected response: neither token nor nonce received"

/-! ## Task engine (src/index.js, lines 244-305) -/

/-- A task as delivered by `/tasks?limit=N&frequency=F`. `user_completion`
is the completion marker: absent (`null`) means pending. -/
structure Task where
  id : String
  description : Option String
  frequency : Option String
  points : Nat
  user_completion : Option String
deriving DecidableEq, Repr

/-- `fetchActiveTasks` (src/index.js lines 265-284): fetch the one-time
catalog, then the daily catalog, concatenating in that order; if either
request throws (after its retries), the catch block returns `[]`. -/
def fetchActiveTasks (once daily : Except ReqError (List Task)) : List Task :=
  match once, daily with
  | .ok t1, .ok t2 => t1 ++ t2
  | _, _ => []

/-- Body of the `/tasks/{id}/complete` response. -/
structure CompleteData where
  status : Option String
deriving DecidableEq, Repr

/-- Success of `completeTask` (src/index.js lines 286-305): `true` exactly
when the request resolved and the response status field is `"APPROVED"`; a thrown
request error is caught and reported as failure. -/
def completeTask (resp : Except ReqError CompleteData) : Bool :=
  match resp with
  | .ok d => decide (d.status = some "APPROVED")
  | .error _ => false

/-- Success of `dailyCheckin` (src/index.js lines 244-263): `true` exactly
when the request resolved and the response message field is `"Checked in"`; any
thrown error is caught and reported as failure. -/
def dailyCheckin (resp : Except ReqError String) : Bool :=
  match resp with
  | .ok msg => decide (msg = "Checked in")
  | .error _ => false

/-- The pending filter of `processAccount` (src/index.js line 352):
`activeTasks.filter(task => task.user_completion === null)`. -/
def pendingTasks (active : List Task) : List Task :=
  active.filter (fun t => t.user_completion = none)

/-- The per-task loop of `processAccount` (src/index.js lines 365-378):
attempt every pending task in order, counting the successes, and record the
id of each task attempted. `completeResp` maps a task id to the resolved
outcome of its completion POST. -/
def runTaskLoop (completeResp : String → Except ReqError CompleteData) :
    List Task → Nat × List String
  | [] => (0, [])
  | t :: ts =>
    let ok := completeTask (completeResp t.id)
    let r := runTaskLoop completeResp ts
    ((if ok then 1 else 0) + r.1, t.id :: r.2)

/-! ## Account processor (src/index.js, `processAccount`, lines 325-397) -/

/-- The per-account world: the decoded keypair
(`Keypair.fromSecretKey(bs58.decode(pk))`, `none` when decoding throws) and
the resolved outcome of each network interaction the account performs. -/
structure AccountEnv where
  keypair : Option Keypair
  loginResp : Except ReqError LoginData
  verify : VerifyPayload → Except ReqError VerifyData
  checkinResp : Except ReqError String
  onceTasks : Except ReqError (List Task)
  dailyTasks : Except ReqError (List Task)
  completeResp : String → Except ReqError CompleteData

/-- Observable outcome of `processAccount` for one account: the early return
on an invalid secret key (src/index.js line 334), the outer catch that
swallows a thrown login failure (line 394), or a completed pass with the
check-in result, the final `completedCount`, and the ids of the tasks
attempted. -/
inductive AccountOutcome where
  | invalidKey
  | errorCaught (msg : String)
  | processed (checkinOk : Bool) (completedCount : Nat) (attempted : List String)
deriving DecidableEq, Repr

/-- `processAccount` (src/index.js lines 325-397). Decode failure returns
early; a login failure is thrown and caught by the account-level catch; on a
token, the pass runs check-in, fetches and filters tasks, and completes each
pending task. `dailyCheckin`, `fetchActiveTasks`, `completeTask` and the
profile refresh all catch their own errors, so only `login` can reach the
account-level catch. -/
def processAccount (cr : CryptoPrims) (env : AccountEnv) : AccountOutcome :=
  match env.keypair with
  | none => .invalidKey
  | some kp =>
    match login cr kp env.loginResp env.verify with
    | .error msg => .errorCaught msg
    | .ok _token =>
      let checkinOk := dailyCheckin env.checkinResp
      let active := fetchActiveTasks env.onceTasks env.dailyTasks
      let pending := pendingTasks active
      let r := runTaskLoop env.completeResp pending
      .processed checkinOk r.1 r.2

/-! ## Proxy configuration (src/index.js, lines 410-425 and 445-446) -/

/-- The two process-wide configuration values `globalUseProxy` and
`globalProxies`. -/
structure Config where
  useProxy : Bool
  proxies : List String
deriving DecidableEq, Repr

/-- The normalisation the prompt answer goes through before the comparison
with `y`: trim whitespace at both ends, then lowercase. Modelled on the
character list of the string because the string-level `trim`/`toLower` of
the Lean library do not reduce in the kernel; on characters this is the
same function. -/
def trimLower (answer : List Char) : List Char :=
  (((answer.dropWhile Char.isWhitespace).reverse.dropWhile
      Char.isWhitespace).reverse).map Char.toLower

/-- `initializeConfig` (src/index.js lines 413-425). `answer` is the raw
reply to the proxy prompt (as its character list), `proxyFile` the (already
line-filtered) content `readProxies` would return. Answering `y` (after
trim/lowercase) enables proxying and loads the list, but an empty list
resets the flag to `false`; any other answer leaves both globals at their
initial values. -/
def initializeConfig (answer : List Char) (proxyFile : List String) : Config :=
  if trimLower answer = ['y'] then
    if proxyFile.length = 0 then { useProxy := false, proxies := proxyFile }
    else { useProxy := true, proxies := proxyFile }
  else { useProxy := false, proxies := [] }

/-- The proxy picked for the account at index `i` (src/index.js line 446):
`globalUseProxy ? globalProxies[i % globalProxies.length] : null`. An
out-of-range JavaScript index (only possible when the list is empty) yields
`undefined`, i.e. `none`. -/
def assignProxy (useProxy : Bool) (proxies : List String) (i : Nat) :
    Option String :=
  if useProxy then proxies.get? (i % proxies.length) else none

/-- The proxies a cycle over `numAccounts` accounts routes through, in
account order. -/
def cycleProxies (cfg : Config) (numAccounts : Nat) : List (Option String) :=
  (List.range numAccounts).map (fun i => assignProxy cfg.useProxy cfg.proxies i)

/-! ## Cycle scheduler (src/index.js, `runCycle` lines 438-457 and `run`
lines 459-481) -/

/-- Result of one cycle: the empty-key-list early exit (src/index.js
line 442), or the per-account outcomes in list order. -/
inductive CycleResult where
  | noKeys
  | ran (outcomes : List AccountOutcome)
deriving DecidableEq, Repr

/-- `runCycle` (src/index.js lines 438-457): abort with a logged error when
no keys were loaded; otherwise process every account in order. Each
`processAccount` call sits in its own try/catch, so no failure of one account can
end the loop; `processAccount` is total here, which is exactly that fact. -/
def runCycle (cr : CryptoPrims) (accounts : List AccountEnv) : CycleResult :=
  if accounts.isEmpty then .noKeys
  else .ran (accounts.map (processAccount cr))

/-- One iteration of the `while (true)` body of `run` (src/index.js lines
475-480): run a cycle, then sleep `delay(86400)` seconds. -/
def runIteration (cr : CryptoPrims) (accounts : List AccountEnv) :
    CycleResult × Nat :=
  (runCycle cr accounts, 86400)

/-- The first `n` iterations of the scheduler loop; `envs k` is the account
list read from `pk.txt` at cycle `k` (the file is re-read every cycle). -/
def runSchedule (cr : CryptoPrims) (envs : Nat → List AccountEnv) :
    Nat → List (CycleResult × Nat)
  | 0 => []
  | n + 1 => runSchedule cr envs n ++ [runIteration cr (envs n)]

/-! ## Concrete sample data

Closed inputs used to evaluate the model on concrete runs: a stand-in for
the external crypto collaborators, the task catalogs of the worked example
in the specification (5 one-time tasks of which 2 are completed, 2 daily
tasks both pending), and a handful of per-account worlds. -/

/-- A concrete instantiation of the abstract crypto collaborators, used only
to evaluate the model at closed inputs; every theorem about `login` and
`processAccount` is proved for arbitrary `CryptoPrims`. -/
def demoCrypto : CryptoPrims where
  enc := fun s => s.toList.map Char.toNat
  sign := fun msg sk => msg ++ sk
  b64 := fun bs => String.intercalate "-" (bs.map toString)

/-- One-time catalog of the worked example: 5 tasks, the first 2 completed. -/
def demoOnce : List Task :=
  [ { id := "o1", description := some "Follow X", frequency := some "ONCE",
      points := 10, user_completion := some "done" },
    { id := "o2", description := some "Join TG", frequency := some "ONCE",
      points := 10, user_completion := some "done" },
    { id := "o3", description := some "Visit site", frequency := some "ONCE",
      points := 5, user_completion := none },
    { id := "o4", description := some "Like post", frequency := some "ONCE",
      points := 5, user_completion := none },
    { id := "o5", description := some "Retweet", frequency := some "ONCE",
      points := 5, user_completion := none } ]

/-- Daily catalog of the worked example: 2 tasks, both pending. -/
def demoDaily : List Task :=
  [ { id := "d1", description := some "Daily visit", frequency := some "DAILY",
      points := 2, user_completion := none },
    { id := "d2", description := some "Daily share", frequency := some "DAILY",
      points := 2, user_completion := none } ]

/-- A keypair stand-in for a successfully decoded secret key. -/
def demoKeypair : Keypair where
  publicKeyBase58 := "DemoAddress"
  secretKey := [7, 7, 7]

/-- An account whose requests all resolve: direct-token login, successful
check-in, both catalogs fetched, and every completion approved except task
`o3`. -/
def goodEnv : AccountEnv where
  keypair := some demoKeypair
  loginResp := .ok { token := some "tok", nonce := none }
  verify := fun _ => .ok { token := some "vtok" }
  checkinResp := .ok "Checked in"
  onceTasks := .ok demoOnce
  dailyTasks := .ok demoDaily
  completeResp := fun i =>
    if i = "o3" then .ok { status := some "PENDING" }
    else .ok { status := some "APPROVED" }

/-- The same account with a secret key that fails base58/keypair decoding. -/
def invalidKeyEnv : AccountEnv := { goodEnv with keypair := none }

/-- The same account with a login response carrying neither token nor
nonce. -/
def loginFailEnv : AccountEnv :=
  { goodEnv with loginResp := .ok { token := none, nonce := none } }

/-- The same account with the one-time catalog request failing even after
its retries. -/
def fetchFailEnv : AccountEnv :=
  { goodEnv with onceTasks := .error .noResponse }

/-! ## Helper instances and lemmas -/

/-- Equality of resolved request outcomes is decidable, so concrete runs of
the model can be settled by evaluation. -/
instance {α β : Type} [DecidableEq α] [DecidableEq β] :
    DecidableEq (Except α β) := fun a b =>
  match a, b with
  | .ok x, .ok y =>
    decidable_of_iff (x = y) (by constructor <;> (intro h; simp_all))
  | .error x, .error y =>
    decidable_of_iff (x = y) (by constructor <;> (intro h; simp_all))
  | .ok _, .error _ => .isFalse (by simp)
  | .error _, .ok _ => .isFalse (by simp)

/-- An attempt whose status passes validation returns at once: no retry, no
sleep. -/
theorem retryGo_ok (validate : Nat → Bool) (env : Nat → AttemptResult)
    (r i : Nat) (b : ℚ) (s : Nat) (h : axiosCall validate (env i) = .ok s) :
    retryGo validate env (r + 1) i b = (some (.ok s), []) := by
  simp [retryGo, h]

/-- On the final attempt (`i = retries - 1`), any error is rethrown to the
caller without sleeping. -/
theorem retryGo_one_error (validate : Nat → Bool) (env : Nat → AttemptResult)
    (i : Nat) (b : ℚ) (e : ReqError) (h : axiosCall validate (env i) = .error e) :
    retryGo validate env 1 i b = (some (.error e), []) := by
  simp [retryGo, h]

/-- With at least two attempts left, any error — 5xx or not — falls into one
of the two catch branches, both of which sleep the current backoff and retry
with backoff multiplied by 1.5. -/
theorem retryGo_step_error (validate : Nat → Bool) (env : Nat → AttemptResult)
    (r i : Nat) (b : ℚ) (e : ReqError) (h : axiosCall validate (env i) = .error e) :
    retryGo validate env (r + 2) i b =
      ((retryGo validate env (r + 1) (i + 1) (b * (3 / 2))).1,
        b :: (retryGo validate env (r + 1) (i + 1) (b * (3 / 2))).2) := by
  by_cases hb : errStatusGE500 e = true
  · simp [retryGo, h, hb]
  · simp [retryGo, h, hb]

/-! ## Claim C1 — when a retry is triggered -/

/-- C1 counterexample: with the default status validation (2xx accepted),
a transport run answering status 404 on every attempt DOES trigger retries —
the client sleeps twice (2000 ms, then 3000 ms) before surfacing the 404
error. This refutes the claim that a response with status 404 under default
status validation terminates the policy immediately and never triggers a
retry: in the code, the second catch branch retries every error while
attempts remain, not only transport errors and 5xx responses. -/
theorem requestWithRetry_404_default_validation_retries :
    requestWithRetry defaultValidate (fun _ => AttemptResult.response 404)
      = (some (.error (.withStatus 404)), [2000, 3000])
    ∧ ([(2000 : ℚ), 3000] : List ℚ) ≠ [] := by
  refine ⟨?_, by simp⟩
  norm_num [requestWithRetry, retryGo, axiosCall, defaultValidate, errStatusGE500]

/-- C1 (amended): a retry is triggered exactly when the attempt raised an
error — a transport failure, or a response whose status the installed
validator rejects, which under default validation includes 404 — and
attempts remain; a response whose status the validator accepts (in
particular a 404 under the permissive validator used by check-in and task
completion) terminates the policy immediately and never triggers a retry. -/
theorem requestWithRetry_retry_iff_attempt_error (validate : Nat → Bool)
    (env : Nat → AttemptResult) :
    (∀ s, axiosCall validate (env 0) = .ok s →
      requestWithRetry validate env = (some (.ok s), []))
    ∧ (∀ e, axiosCall validate (env 0) = .error e →
      ∃ ds, (requestWithRetry validate env).2 = 2000 :: ds) := by
  constructor
  · intro s h
    exact retryGo_ok validate env 2 0 2000 s h
  · intro e h
    rw [requestWithRetry, retryGo_step_error validate env 1 0 2000 e h]
    exact ⟨_, rfl⟩

/-- C1 witness: a 404 response under the permissive validator is accepted on
the first attempt and triggers no retry. -/
theorem requestWithRetry_retry_iff_attempt_error_witness :
    requestWithRetry permissiveValidate (fun _ => AttemptResult.response 404)
      = (some (.ok 404), []) :=
  (requestWithRetry_retry_iff_attempt_error permissiveValidate
    (fun _ => AttemptResult.response 404)).1 404 (by rfl)

/-! ## Claim C2 — attempt bound, backoff schedule, last error surfaced -/

/-- C2: every request runs at most 3 attempts (hence at most 2 retries); the
delay before the k-th retry is 2000·1.5^(k−1) ms — the possible sleep
schedules are exactly [], [2000], [2000, 3000] — and when every attempt
fails, the error of the last attempt is thrown to the caller rather than
swallowed. -/
theorem requestWithRetry_three_attempts_backoff_last_error
    (validate : Nat → Bool) (env : Nat → AttemptResult) :
    ((requestWithRetry validate env).2 = []
      ∨ (requestWithRetry validate env).2 = [2000]
      ∨ (requestWithRetry validate env).2 = [2000, 3000])
    ∧ (requestWithRetry validate env).2.length ≤ 2
    ∧ (∀ e0 e1 e2, axiosCall validate (env 0) = .error e0 →
        axiosCall validate (env 1) = .error e1 →
        axiosCall validate (env 2) = .error e2 →
        requestWithRetry validate env = (some (.error e2), [2000, 3000])) := by
  have key : ((requestWithRetry validate env).2 = []
      ∨ (requestWithRetry validate env).2 = [2000]
      ∨ (requestWithRetry validate env).2 = [2000, 3000])
    ∧ (∀ e0 e1 e2, axiosCall validate (env 0) = .error e0 →
        axiosCall validate (env 1) = .error e1 →
        axiosCall validate (env 2) = .error e2 →
        requestWithRetry validate env = (some (.error e2), [2000, 3000])) := by
    simp only [requestWithRetry]
    generalize h0 : axiosCall validate (env 0) = c0
    cases c0 with
    | ok s0 =>
      rw [retryGo_ok validate env 2 0 2000 s0 h0]
      refine ⟨Or.inl rfl, ?_⟩
      intro e0 e1 e2 g0 g1 g2
      exact Except.noConfusion g0
    | error e0 =>
      rw [retryGo_step_error validate env 1 0 2000 e0 h0]
      generalize h1 : axiosCall validate (env 1) = c1
      cases c1 with
      | ok s1 =>
        rw [retryGo_ok validate env 1 1 (2000 * (3 / 2)) s1 h1]
        refine ⟨Or.inr (Or.inl rfl), ?_⟩
        intro e0' e1' e2' g0 g1 g2
        exact Except.noConfusion g1
      | error e1 =>
        rw [retryGo_step_error validate env 0 1 (2000 * (3 / 2)) e1 h1]
        generalize h2 : axiosCall validate (env 2) = c2
        cases c2 with
        | ok s2 =>
          rw [retryGo_ok validate env 0 2 (2000 * (3 / 2) * (3 / 2)) s2 h2]
          refine ⟨Or.inr (Or.inr (by norm_num)), ?_⟩
          intro e0' e1' e2' g0 g1 g2
          exact Except.noConfusion g2
        | error e2 =>
          rw [retryGo_one_error validate env 2 (2000 * (3 / 2) * (3 / 2)) e2 h2]
          refine ⟨Or.inr (Or.inr (by norm_num)), ?_⟩
          intro e0' e1' e2' g0 g1 g2
          have he : e2 = e2' := Except.error.inj g2
          subst he
          norm_num
  refine ⟨key.1, ?_, key.2⟩
  rcases key.1 with h | h | h <;> simp [h]

/-- C2 witness: a transport failure on all three attempts ends with the last
attempt error thrown after sleeping 2000 ms and 3000 ms. -/
theorem requestWithRetry_three_attempts_backoff_last_error_witness :
    requestWithRetry defaultValidate (fun _ => AttemptResult.netError)
      = (some (.error .noResponse), [2000, 3000]) :=
  (requestWithRetry_three_attempts_backoff_last_error defaultValidate
    (fun _ => AttemptResult.netError)).2.2
    .noResponse .noResponse .noResponse rfl rfl rfl

/-! ## Claim C3 — the login protocol -/

/-- C3: for every login response, (A) a truthy token field is returned
immediately; (B) otherwise a truthy nonce is encoded, signed with the
account secret key, base64-encoded, and exactly the payload
`{signature, wallet_address}` is POSTed to the verify endpoint, whose token
becomes the session token; (C) neither token nor nonce fails the login with
an error; and a login error is caught by the account-level catch and aborts
only that account — the cycle still maps every account of the list to its
own outcome. -/
theorem login_protocol (cr : CryptoPrims) (kp : Keypair)
    (verify : VerifyPayload → Except ReqError VerifyData) :
    (∀ (d : LoginData) (t : String), truthy d.token = some t →
      login cr kp (.ok d) verify = .ok (some t))
    ∧ (∀ (d : LoginData) (nonce : String),
        truthy d.token = none → truthy d.nonce = some nonce →
        login cr kp (.ok d) verify =
          (match verify { signature := cr.b64 (cr.sign (cr.enc nonce) kp.secretKey),
                          wallet_address := kp.publicKeyBase58 } with
           | .ok v => .ok v.token
           | .error _ => .error "Failed to login: request error"))
    ∧ (∀ d : LoginData, truthy d.token = none → truthy d.nonce = none →
        login cr kp (.ok d) verify =
          .error "Failed to login: Unexpected response: neither token nor nonce received")
    ∧ (∀ (env : AccountEnv) (kp2 : Keypair) (msg : String),
        env.keypair = some kp2 →
        login cr kp2 env.loginResp env.verify = .error msg →
        processAccount cr env = .errorCaught msg)
    ∧ (∀ accounts : List AccountEnv, accounts ≠ [] →
        runCycle cr accounts = .ran (accounts.map (processAccount cr))) := by
  refine ⟨?_, ?_, ?_, ?_, ?_⟩
  · intro d t h
    simp [login, h]
  · intro d nonce h1 h2
    simp [login, h1, h2]
  · intro d h1 h2
    simp [login, h1, h2]
  · intro env kp2 msg hk hm
    simp [processAccount, hk, hm]
  · intro accounts ha
    cases accounts with
    | nil => exact absurd rfl ha
    | cons a as => simp [runCycle]

/-- C3 witness: a nonce-challenge login with a verify endpoint answering a
token returns that token. -/
theorem login_protocol_witness :
    login demoCrypto demoKeypair (.ok { token := none, nonce := some "abc" })
      (fun _ => .ok { token := some "vtok" }) = .ok (some "vtok") := by
  rw [(login_protocol demoCrypto demoKeypair
      (fun _ => .ok { token := some "vtok" })).2.1
      { token := none, nonce := some "abc" } "abc" rfl rfl]

/-! ## Claim C4 — catalog order and the pending filter -/

/-- C4: the active-task list is the one-time catalog followed by the daily
catalog; the pending filter selects exactly the tasks whose completion
marker is absent, preserving order (it yields a sublist); and on the worked
example — 5 one-time tasks of which 2 are completed plus 2 pending daily
tasks — it yields exactly the 5 pending tasks, one-time catalog first. -/
theorem active_tasks_pending_filter (t1 t2 : List Task) :
    fetchActiveTasks (.ok t1) (.ok t2) = t1 ++ t2
    ∧ (pendingTasks (t1 ++ t2)).Sublist (t1 ++ t2)
    ∧ (∀ t, t ∈ pendingTasks (t1 ++ t2) ↔ t ∈ t1 ++ t2 ∧ t.user_completion = none)
    ∧ (pendingTasks (fetchActiveTasks (.ok demoOnce) (.ok demoDaily))).map Task.id
        = ["o3", "o4", "o5", "d1", "d2"]
    ∧ (pendingTasks (fetchActiveTasks (.ok demoOnce) (.ok demoDaily))).length = 5 := by
  refine ⟨rfl, List.filter_sublist _, ?_, by decide, by decide⟩
  intro t
  simp [pendingTasks, List.mem_filter]
  tauto

/-! ## Claim C5 — the completed counter counts exactly the APPROVED responses -/

/-- The final completed count of the task loop equals the number of tasks
whose completion response was approved. -/
theorem runTaskLoop_count (completeResp : String → Except ReqError CompleteData) :
    ∀ ts : List Task, (runTaskLoop completeResp ts).1
      = (ts.filter (fun t => completeTask (completeResp t.id))).length
  | [] => by simp [runTaskLoop]
  | t :: ts => by
    by_cases h : completeTask (completeResp t.id) <;>
      simp [runTaskLoop, h, runTaskLoop_count completeResp ts, Nat.add_comm]

/-- The task loop attempts every task of its input list, in order. -/
theorem runTaskLoop_attempted (completeResp : String → Except ReqError CompleteData) :
    ∀ ts : List Task, (runTaskLoop completeResp ts).2 = ts.map Task.id
  | [] => by simp [runTaskLoop]
  | t :: ts => by simp [runTaskLoop, runTaskLoop_attempted completeResp ts]

/-- C5: over one account pass, an `"APPROVED"` completion response
increments the completed counter by one, any other outcome leaves it
unchanged, processing continues through every pending task in order, and
the final count equals the number of APPROVED responses. -/
theorem task_loop_counts_approved
    (completeResp : String → Except ReqError CompleteData) (ts : List Task) :
    (runTaskLoop completeResp ts).1
      = (ts.filter (fun t => completeTask (completeResp t.id))).length
    ∧ (runTaskLoop completeResp ts).2 = ts.map Task.id
    ∧ (∀ d : CompleteData, completeTask (.ok d) = decide (d.status = some "APPROVED"))
    ∧ (∀ (t : Task) (ts2 : List Task),
        (runTaskLoop completeResp (t :: ts2)).1
          = (if completeTask (completeResp t.id) then 1 else 0)
            + (runTaskLoop completeResp ts2).1) :=
  ⟨runTaskLoop_count completeResp ts, runTaskLoop_attempted completeResp ts,
    fun _ => rfl, fun _ _ => rfl⟩

/-! ## Claim C6 — round-robin proxy assignment -/

/-- C6: with proxying enabled and a non-empty proxy list of length P, the
account at index i is assigned `proxies[i mod P]`; with proxying disabled,
or enabled over an empty list, no proxy is assigned. -/
theorem proxy_round_robin (proxies : List String) (i : Nat) :
    (∀ h : 0 < proxies.length,
      assignProxy true proxies i
        = some (proxies.get ⟨i % proxies.length, Nat.mod_lt i h⟩))
    ∧ assignProxy false proxies i = none
    ∧ (∀ j : Nat, assignProxy true [] j = none) := by
  refine ⟨?_, rfl, fun j => rfl⟩
  intro h
  simp [assignProxy, List.get?_eq_get (Nat.mod_lt i h)]

/-- C6 witness: two proxies, account index 5 gets proxy 5 mod 2 = 1. -/
theorem proxy_round_robin_witness :
    assignProxy true ["p0", "p1"] 5 = some "p1" :=
  ((proxy_round_robin ["p0", "p1"] 5).1 (by decide)).trans (by rfl)

/-! ## Claim C7 — per-account failure isolation in a cycle -/

/-- C7: a non-empty cycle produces one outcome per account, in list order,
the outcome at index i depending only on the account at index i — so an
invalid secret key or a login failure of one account (whose outcome is
`invalidKey` or `errorCaught`, recorded, not propagated) never prevents any
other account of the list from being processed. -/
theorem cycle_isolates_accounts (cr : CryptoPrims)
    (accounts : List AccountEnv) (h : accounts ≠ []) :
    runCycle cr accounts = .ran (accounts.map (processAccount cr))
    ∧ (accounts.map (processAccount cr)).length = accounts.length
    ∧ (∀ (i : Nat) (hi : i < accounts.length),
        (accounts.map (processAccount cr)).get ⟨i, by simpa using hi⟩
          = processAccount cr (accounts.get ⟨i, hi⟩))
    ∧ (∀ env ∈ accounts, env.keypair = none →
        AccountOutcome.invalidKey ∈ accounts.map (processAccount cr)) := by
  refine ⟨?_, List.length_map accounts _, ?_, ?_⟩
  · cases accounts with
    | nil => exact absurd rfl h
    | cons a as => simp [runCycle]
  · intro i hi
    simp [List.get_map]
  · intro env hm hk
    exact List.mem_map.2 ⟨env, hm, by simp [processAccount, hk]⟩

/-- C7 witness: three accounts, the middle one with an invalid secret key —
accounts 1 and 3 still complete their full pass. -/
theorem cycle_isolates_accounts_witness :
    runCycle demoCrypto [goodEnv, invalidKeyEnv, goodEnv]
      = .ran [.processed true 4 ["o3", "o4", "o5", "d1", "d2"],
              .invalidKey,
              .processed true 4 ["o3", "o4", "o5", "d1", "d2"]] :=
  ((cycle_isolates_accounts demoCrypto [goodEnv, invalidKeyEnv, goodEnv]
    (by simp)).1).trans (by rfl)

/-! ## Claim C8 — empty credential list does not stop the scheduler -/

/-- C8: a cycle over an empty credential list only logs (`noKeys`, no
account outcomes), the iteration still ends in the 86400-second sleep, the
scheduler runs exactly one iteration per cycle forever, and the next cycle
runs normally. -/
theorem empty_cycle_scheduler_continues (cr : CryptoPrims)
    (envs : Nat → List AccountEnv) (h0 : envs 0 = []) :
    runCycle cr (envs 0) = .noKeys
    ∧ runIteration cr (envs 0) = (.noKeys, 86400)
    ∧ (∀ n, (runSchedule cr envs n).length = n)
    ∧ runSchedule cr envs 2 = [(.noKeys, 86400), (runCycle cr (envs 1), 86400)] := by
  have hcycle : runCycle cr (envs 0) = .noKeys := by simp [runCycle, h0]
  have hlen : ∀ n, (runSchedule cr envs n).length = n := by
    intro n
    induction n with
    | zero => rfl
    | succ n ih => simp [runSchedule, ih]
  refine ⟨hcycle, ?_, hlen, ?_⟩
  · simp [runIteration, hcycle]
  · simp [runSchedule, runIteration, hcycle]

/-- C8 witness: an empty key file on cycle 0 and one account on cycle 1 —
the scheduler sleeps 24 h after the empty cycle and processes the account on
the next one. -/
theorem empty_cycle_scheduler_continues_witness :
    runSchedule demoCrypto (fun k => if k = 0 then [] else [goodEnv]) 2
      = [(.noKeys, 86400),
         (.ran [.processed true 4 ["o3", "o4", "o5", "d1", "d2"]], 86400)] :=
  ((empty_cycle_scheduler_continues demoCrypto
      (fun k => if k = 0 then [] else [goodEnv]) rfl).2.2.2).trans (by rfl)

/-! ## Claim C9 — fetchActiveTasks never raises -/

/-- C9: if either catalog request fails even after retries,
`fetchActiveTasks` returns the empty list instead of raising, and the
account pass proceeds as a zero-task pass (check-in still reported, zero
completed, zero attempted) instead of aborting the account. -/
theorem fetch_tasks_never_raises (cr : CryptoPrims) :
    (∀ (e : ReqError) (daily : Except ReqError (List Task)),
      fetchActiveTasks (.error e) daily = [])
    ∧ (∀ (once : Except ReqError (List Task)) (e : ReqError),
      fetchActiveTasks once (.error e) = [])
    ∧ (∀ (env : AccountEnv) (kp : Keypair) (tok : Option String) (e : ReqError),
        env.keypair = some kp →
        login cr kp env.loginResp env.verify = .ok tok →
        env.onceTasks = .error e →
        processAccount cr env = .processed (dailyCheckin env.checkinResp) 0 []) := by
  refine ⟨?_, ?_, ?_⟩
  · intro e daily
    cases daily <;> rfl
  · intro once e
    cases once <;> rfl
  · intro env kp tok e hk hl ho
    have hfetch : fetchActiveTasks env.onceTasks env.dailyTasks = [] := by
      rw [ho]; cases env.dailyTasks <;> rfl
    simp [processAccount, hk, hl, hfetch, pendingTasks, runTaskLoop]

/-- C9 witness: a transport failure on the one-time catalog yields a normal
zero-task pass for the account. -/
theorem fetch_tasks_never_raises_witness :
    processAccount demoCrypto fetchFailEnv = .processed true 0 [] :=
  ((fetch_tasks_never_raises demoCrypto).2.2 fetchFailEnv demoKeypair
    (some "tok") .noResponse rfl rfl rfl).trans (by rfl)

/-! ## Claim C10 — the proxy-enabled flag implies a non-empty proxy list -/

/-- C10: `initializeConfig` establishes that whenever the proxy-enabled flag
is true the proxy list is non-empty (the flag is reset when the list is
empty), and the configuration is never mutated afterwards — both globals
enter every cycle as read-only values — so the round-robin assignment of
every cycle computes `i mod P` with `P ≥ 1` and always yields an actual
proxy, never an undefined one. -/
theorem proxy_flag_invariant (answer : List Char) (proxyFile : List String) :
    ((initializeConfig answer proxyFile).useProxy = true →
      (initializeConfig answer proxyFile).proxies ≠ []
      ∧ 0 < (initializeConfig answer proxyFile).proxies.length)
    ∧ ((initializeConfig answer proxyFile).useProxy = true →
      ∀ n : Nat, ∀ p ∈ cycleProxies (initializeConfig answer proxyFile) n,
        p.isSome = true) := by
  by_cases hy : trimLower answer = ['y']
  · by_cases hz : proxyFile.length = 0
    · constructor <;> (intro hu; simp [initializeConfig, hy, hz] at hu)
    · have hcfg : initializeConfig answer proxyFile
          = { useProxy := true, proxies := proxyFile } := by
        simp [initializeConfig, hy, hz]
      have hpos : 0 < proxyFile.length := Nat.pos_of_ne_zero hz
      rw [hcfg]
      constructor
      · intro _
        exact ⟨List.ne_nil_of_length_pos hpos, hpos⟩
      · intro _ n p hp
        simp only [cycleProxies, List.mem_map] at hp
        obtain ⟨i, _, hpi⟩ := hp
        have hl : i % proxyFile.length < proxyFile.length := Nat.mod_lt i hpos
        rw [← hpi]
        simp only [assignProxy, if_pos rfl]
        rw [List.get?_eq_get hl]
        rfl
  · constructor <;> (intro hu; simp [initializeConfig, hy] at hu)

/-- C10 witness: answering `y` with one proxy loaded keeps the flag true and
the list non-empty. -/
theorem proxy_flag_invariant_witness :
    (initializeConfig ['y'] ["p1"]).proxies ≠ []
      ∧ 0 < (initializeConfig ['y'] ["p1"]).proxies.length :=
  (proxy_flag_invariant ['y'] ["p1"]).1 (by decide)

end DapBot
